import Mathlib

/-!
Verification of the chat_extractor repository (files `app.py` and
`streamlit_app.py`) against its design specification.

The program is a thin orchestration layer: it ingests uploaded screenshot
files, sorts them by filename, builds prompts for a hosted model, and caches
analysis results per analysis type in the per-session state.  This file gives
a shallow embedding of that orchestration logic:

* Python strings are Lean `String`s; `str.strip` is modelled by `pyStrip`
  (ASCII whitespace, the characters Python strips from ASCII text), and
  Python's code-point-lexicographic string comparison by `lexLe`/`nameLe`.
* The Streamlit upload objects are `UploadFile` records; PIL image decoding
  (`Image.open`) is an external effect and is therefore a parameter
  `decode : List Nat → Option PILImage` of the ingestion functions.
* The single Gemini call of `extract_conversation` is a parameter
  `generate_content`; the function additionally returns the list of requests
  it issued, so that "no request is issued" is observable in the model.
* The per-session Streamlit dict `st.session_state.analysis_results` is an
  insertion-ordered association list with unique keys, with `dictSet`
  modelling Python dict assignment and `dictGet` dict lookup.
-/

/-- Characters removed by Python `str.strip()` on ASCII text:
space, tab, line feed, vertical tab, form feed, carriage return. -/
def isPySpace (c : Char) : Bool :=
  c.toNat = 32 || c.toNat = 9 || c.toNat = 10 || c.toNat = 13 || c.toNat = 11 || c.toNat = 12

/-- Remove leading and trailing whitespace from a character list. -/
def stripList (l : List Char) : List Char :=
  List.rdropWhile isPySpace (l.dropWhile isPySpace)

/-- Model of Python `str.strip()` (no arguments): drop leading and trailing
whitespace. -/
def pyStrip (s : String) : String :=
  String.mk (stripList s.data)

/-- Code-point lexicographic less-or-equal on character lists; this is the
order Python uses to compare `str` values, and hence the order used by
`file_data.sort(key=lambda x: x['name'])`. -/
def lexLe : List Char → List Char → Bool
  | [], _ => true
  | _ :: _, [] => false
  | a :: as, b :: bs =>
    if a.toNat < b.toNat then true
    else if b.toNat < a.toNat then false
    else lexLe as bs

/-- Python string comparison `a <= b`, applied to filenames. -/
def nameLe (a b : String) : Bool := lexLe a.data b.data

/-- A decoded image handle (`PIL.Image.Image`).  The decoder is external to
the repository, so the handle is opaque; we keep the raw bytes it was decoded
from so that distinct decodes are distinguishable. -/
structure PILImage where
  data : List Nat
deriving DecidableEq

/-- A Streamlit uploaded file: a filename plus the raw byte buffer returned
by `file.read()`. -/
structure UploadFile where
  name : String
  bytes : List Nat
deriving DecidableEq

/-- One entry of the `file_data` list built by `prepare_images`:
`{'name': file.name, 'image': image, 'size': len(file_bytes)}`. -/
structure FileData where
  name : String
  image : PILImage
  size : Nat
deriving DecidableEq

/-- The `for file in uploaded_files` loop of `ChatExtractor.prepare_images`
(`streamlit_app.py` lines 56-73, identical in `app.py`): each file is decoded;
on success a `FileData` entry is appended, on failure an error is reported for
that file (`st.error`, modelled by recording the filename in the second
component) and the loop continues with the next file. -/
def ingestLoop (decode : List Nat → Option PILImage) :
    List UploadFile → List FileData × List String
  | [] => ([], [])
  | f :: rest =>
    match decode f.bytes with
    | some img =>
      let r := ingestLoop decode rest
      (⟨f.name, img, f.bytes.length⟩ :: r.1, r.2)
    | none =>
      let r := ingestLoop decode rest
      (r.1, f.name :: r.2)

/-- The sort key of `file_data.sort(key=lambda x: x['name'])`: compare
entries by filename only. -/
def fileLe (a b : FileData) : Prop := nameLe a.name b.name = true

instance : DecidableRel fileLe := fun a b => Bool.decEq (nameLe a.name b.name) true

/-- Model of `file_data.sort(key=lambda x: x['name'])`: Python `list.sort` is
a stable ascending sort by the key, which insertion sort over `fileLe`
computes. -/
def sortByName (l : List FileData) : List FileData :=
  List.insertionSort fileLe l

/-- `ChatExtractor.prepare_images` (`streamlit_app.py` lines 43-81, identical
in `app.py`): run the ingestion loop, sort the surviving entries by filename,
and return the sorted images together with the parallel metadata list. -/
def prepare_images (decode : List Nat → Option PILImage) (uploaded_files : List UploadFile) :
    List PILImage × List FileData :=
  let file_data := (ingestLoop decode uploaded_files).1
  let sorted := sortByName file_data
  (sorted.map (fun item => item.image), sorted)

/-- The fixed extraction instruction returned by
`ChatExtractor.generate_extraction_prompt` (`generate_prompt` in `app.py`). -/
def generate_extraction_prompt : String :=
  "You are an intelligent conversation extractor.\n\nYou will receive a list of sequential chat screenshots uploaded by the user in the correct order. Each image contains a portion of an informal conversation between two people via a messaging app (e.g., Instagram, WhatsApp, etc.).\n\nYour task is to extract the entire conversation as coherent text, without losing any context or breaking the emotional or logical flow. Assume that the images were uploaded in order: first screenshot is the beginning of the chat, and the last is the latest.\n\nInstructions:\n- Preserve message order across images.\n- Use visible names like \"Snehal\" or \"You\" to label speakers.\n- Group multiline messages if they appear in a single message bubble.\n- Handle mixed-language content (e.g., Hindi-English) as-is.\n- Remove timestamps, UI elements, icons, or chat noise.\n- Output format:\n  [Sender]: message  \n  [Other]: message  \n  ...and so on.\nOnly return the cleaned conversation text."

/-- The `base_context` f-string of `ChatExtractor.generate_analysis_prompt`
(`streamlit_app.py` lines 120-128): shared preamble embedding the transcript
and, when the user context is non-blank, a labelled context block. -/
def base_context (conversation_text user_context : String) : String :=
  "\nCONVERSATION TO ANALYZE:\n" ++ conversation_text ++ "\n\n" ++
    (if pyStrip user_context = "" then "" else "USER PROVIDED CONTEXT: " ++ user_context) ++
    "\n\nANALYSIS INSTRUCTIONS:\nProvide an unbiased, objective analysis of this conversation. Focus on observable patterns, communication styles, and interpersonal dynamics without making assumptions about people\x27s character or intentions beyond what\x27s directly evident in the text.\n"

/-- Template body appended to `base_context` for the "communication_style"
analysis type. -/
def communication_style_template : String :=
  "\nCOMMUNICATION STYLE ANALYSIS:\nAnalyze the communication patterns and styles of each participant:\n1. **Formality Level**: How formal or casual is each person\x27s language?\n2. **Response Patterns**: Who initiates topics? Who responds more/less?\n3. **Message Length**: Are messages typically short/long? Who writes more?\n4. **Language Choice**: Any code-switching, emojis, slang usage patterns?\n5. **Engagement Style**: Active vs passive participation patterns\n6. **Emotional Expression**: How do participants express emotions through text?\n\nBe objective and focus only on observable communication behaviors."

/-- Template body appended to `base_context` for the "emotional_tone"
analysis type. -/
def emotional_tone_template : String :=
  "\nEMOTIONAL TONE & SENTIMENT ANALYSIS:\nAnalyze the emotional undertones and sentiment flow:\n1. **Overall Sentiment**: What\x27s the general emotional tone throughout?\n2. **Sentiment Progression**: How does the emotional tone change over time?\n3. **Individual Emotions**: What emotions can you detect from each participant?\n4. **Tension Points**: Are there moments of disagreement, confusion, or tension?\n5. **Positive Moments**: Identify moments of connection, humor, or warmth\n6. **Subtle Indicators**: Tone shifts, word choices that suggest underlying feelings\n\nFocus on what\x27s directly observable in the language used."

/-- Template body appended to `base_context` for the "relationship_dynamics"
analysis type. -/
def relationship_dynamics_template : String :=
  "\nRELATIONSHIP DYNAMICS ANALYSIS:\nExamine the interpersonal dynamics and relationship patterns:\n1. **Power Balance**: Is the conversation equal or does someone lead/follow?\n2. **Intimacy Level**: How close/distant do the participants seem?\n3. **Conversational Roles**: Who asks questions, gives advice, shares personal info?\n4. **Conflict Resolution**: How do they handle disagreements or misunderstandings?\n5. **Support Patterns**: How do they offer/receive emotional support?\n6. **Boundaries**: Are there topics avoided or boundaries respected/crossed?\n\nBase analysis only on interaction patterns visible in the conversation."

/-- Template body appended to `base_context` for the "hidden_meanings"
analysis type. -/
def hidden_meanings_template : String :=
  "\nSUBTEXT & HIDDEN MEANINGS ANALYSIS:\nLook for underlying messages and unspoken communication:\n1. **Subtext**: What might be implied but not directly stated?\n2. **Avoidance Patterns**: Topics that seem to be skirted around?\n3. **Passive Communication**: Indirect ways of expressing needs/concerns?\n4. **Reading Between Lines**: Suggestions, hints, or coded messages?\n5. **Unresolved Issues**: Tensions or topics that remain unaddressed?\n6. **Context Clues**: References to shared experiences or inside knowledge?\n\nBe careful to distinguish between reasonable inferences and speculation."

/-- Template body appended to `base_context` for the "conversation_flow"
analysis type. -/
def conversation_flow_template : String :=
  "\nCONVERSATION FLOW & STRUCTURE ANALYSIS:\nAnalyze how the conversation develops and flows:\n1. **Topic Progression**: How do topics evolve and connect?\n2. **Transition Points**: How smoothly do participants change subjects?\n3. **Interruption Patterns**: Who interrupts or redirects conversations?\n4. **Question-Answer Dynamics**: How are questions posed and answered?\n5. **Storytelling Elements**: How do participants share experiences or information?\n6. **Conversation Closure**: How do topics or the overall chat conclude?\n\nFocus on the structural and flow aspects of the communication."

/-- Template body appended to `base_context` for the "cultural_context"
analysis type. -/
def cultural_context_template : String :=
  "\nCULTURAL & LINGUISTIC CONTEXT ANALYSIS:\nExamine cultural and language elements in the conversation:\n1. **Language Mixing**: How multiple languages are used and why?\n2. **Cultural References**: Mentions of cultural practices, events, or concepts?\n3. **Formality Levels**: Cultural politeness markers or informal expressions?\n4. **Generation Indicators**: Language that might indicate age or generational differences?\n5. **Regional Elements**: Location-specific references or language patterns?\n6. **Social Context**: References to social situations, family, work, etc.?\n\nAnalyze without stereotyping or making broad cultural generalizations."

/-- Template body appended to `base_context` for the "comprehensive"
analysis type. -/
def comprehensive_template : String :=
  "\nCOMPREHENSIVE CONVERSATION ANALYSIS:\nProvide a thorough, multi-dimensional analysis covering:\n\n**COMMUNICATION OVERVIEW:**\n- Overall conversation purpose and outcome\n- Key themes and topics discussed\n- Communication effectiveness\n\n**PARTICIPANT ANALYSIS:**\n- Individual communication styles\n- Emotional states and expressions\n- Role each person plays in the conversation\n\n**DYNAMICS & PATTERNS:**\n- Power balance and relationship dynamics  \n- Conversation flow and topic management\n- Conflict/agreement patterns\n\n**EMOTIONAL LANDSCAPE:**\n- Sentiment progression throughout\n- Emotional support and connection moments\n- Areas of tension or misunderstanding\n\n**DEEPER INSIGHTS:**\n- Possible subtext or unspoken elements\n- Cultural/linguistic context\n- What the conversation reveals about the relationship\n\nKeep analysis balanced, evidence-based, and avoid over-interpretation."

/-- The `prompts` dict of `ChatExtractor.generate_analysis_prompt`
(`streamlit_app.py` lines 130-233), as an insertion-ordered association list:
each of the seven analysis types maps to `base_context` followed by its
template body. -/
def analysis_prompts (base : String) : List (String × String) :=
  [("communication_style", base ++ communication_style_template),
   ("emotional_tone", base ++ emotional_tone_template),
   ("relationship_dynamics", base ++ relationship_dynamics_template),
   ("hidden_meanings", base ++ hidden_meanings_template),
   ("conversation_flow", base ++ conversation_flow_template),
   ("cultural_context", base ++ cultural_context_template),
   ("comprehensive", base ++ comprehensive_template)]

/-- The seven analysis-type keys of the `prompts` dict, in source order. -/
def analysis_prompt_keys : List String :=
  ["communication_style", "emotional_tone", "relationship_dynamics",
   "hidden_meanings", "conversation_flow", "cultural_context", "comprehensive"]

/-- `ChatExtractor.generate_analysis_prompt` (`streamlit_app.py` lines
108-235): build `base_context` from the transcript and optional user context,
then return `prompts.get(analysis_type, prompts["comprehensive"])`. -/
def generate_analysis_prompt (conversation_text analysis_type user_context : String) : String :=
  let prompts := analysis_prompts (base_context conversation_text user_context)
  (prompts.lookup analysis_type).getD ((prompts.lookup "comprehensive").getD "")

/-- One part of a Gemini request: the instruction string or one image, as
assembled in `content = [prompt]; content.extend(images)`. -/
inductive GeminiPart where
  | text : String → GeminiPart
  | image : PILImage → GeminiPart
deriving DecidableEq

/-- `ChatExtractor.extract_conversation` (`streamlit_app.py` lines 237-269,
identical in `app.py` lines 108-140).  The hosted model is the external
parameter `generate_content` (`some t` = a response carrying text, `none` =
request failure or a response without a text field).  Besides the optional
transcript, the model returns the list of requests issued, so that the
absence of a request is observable: the source returns `None` before
building any content when `images` is empty. -/
def extract_conversation (generate_content : List GeminiPart → Option String)
    (images : List PILImage) : Option String × List (List GeminiPart) :=
  if images.isEmpty then (none, [])
  else
    let prompt := generate_extraction_prompt
    let content := GeminiPart.text prompt :: images.map (fun i => GeminiPart.image i)
    match generate_content content with
    | some t => (some (pyStrip t), [content])
    | none => (none, [content])

/-- `ChatExtractor.__init__` (`streamlit_app.py` lines 27-41): raise
`ValueError("API key cannot be empty")` when the key is the empty string or
strips to the empty string, otherwise construct the extractor (represented by
the stored key; the Gemini client construction is external). -/
def chatExtractor_init (api_key : String) : Except String String :=
  if api_key = "" ∨ pyStrip api_key = "" then
    Except.error "API key cannot be empty"
  else
    Except.ok api_key

/-- The sidebar validation of `main` (`streamlit_app.py` lines 383-403):
no input, or an input whose stripped length is under 20 characters, is
rejected; otherwise the key is accepted for use. -/
def api_key_valid (api_key_input : String) : Bool :=
  if api_key_input = "" then false
  else if (pyStrip api_key_input).length < 20 then false
  else true

/-- The gate of `main` before any model use (`streamlit_app.py` lines
430-476): with an invalid key `main` returns before constructing the
extractor (`none`: no request can ever be attempted); with a valid key it
constructs `ChatExtractor(api_key_input.strip())`. -/
def main_init (api_key_input : String) : Option (Except String String) :=
  if api_key_valid api_key_input then some (chatExtractor_init (pyStrip api_key_input))
  else none

/-- One stored analysis result (`streamlit_app.py` lines 689-694):
result text, timestamp, the context used, and the processing duration.
Durations are wall-clock readings that are only ever stored and displayed,
never computed with, so they are modelled as opaque naturals. -/
structure AnalysisRecord where
  result : String
  timestamp : String
  context : String
  processing_time : Nat
deriving DecidableEq

/-- Python dict assignment `d[k] = v` on an insertion-ordered association
list with unique keys: an existing key keeps its position and gets the new
value; a new key is appended at the end. -/
def dictSet (d : List (String × AnalysisRecord)) (k : String) (v : AnalysisRecord) :
    List (String × AnalysisRecord) :=
  match d with
  | [] => [(k, v)]
  | (k2, v2) :: rest => if k2 = k then (k, v) :: rest else (k2, v2) :: dictSet rest k v

/-- Python dict lookup `d.get(k)` on the association list. -/
def dictGet (d : List (String × AnalysisRecord)) (k : String) : Option AnalysisRecord :=
  match d with
  | [] => none
  | (k2, v2) :: rest => if k2 = k then some v2 else dictGet rest k

/-- `st.session_state.analysis_results[selected_analysis] = {...}`
(`streamlit_app.py` lines 687-694): store the new run's record under the
selected analysis type. -/
def storeAnalysisResult (cache : List (String × AnalysisRecord)) (selected_analysis : String)
    (analysis_result timestamp user_context : String) (analysis_time : Nat) :
    List (String × AnalysisRecord) :=
  dictSet cache selected_analysis
    (AnalysisRecord.mk analysis_result timestamp user_context analysis_time)

/-- The per-session state touched by the analysis tab: the extracted
transcript (`st.session_state.conversation`) and the analysis cache
(`st.session_state.analysis_results`). -/
structure SessionState where
  conversation : Option String
  analysis_results : List (String × AnalysisRecord)
deriving DecidableEq

/-- The records iterated by the "Previous Analysis Results" display
(`streamlit_app.py` lines 771-781). -/
def getAllRecords (s : SessionState) : List (String × AnalysisRecord) :=
  s.analysis_results

/-- The "Clear Analysis History" action (`streamlit_app.py` lines 794-797):
`st.session_state.analysis_results = {}`. -/
def clearAnalysisHistory (s : SessionState) : SessionState :=
  { s with analysis_results := [] }

/-- Replace every occurrence of the character `c` by the string `r`;
Python `text.replace(c, r)` for a single-character pattern. -/
def replaceChar (c : Char) (r : List Char) : List Char → List Char
  | [] => []
  | x :: xs => (if x = c then r else [x]) ++ replaceChar c r xs

/-- Python `text.replace(old, new)` restricted to the single-character
patterns used by `escape_javascript_string`. -/
def pyReplace (s : String) (c : Char) (r : String) : String :=
  String.mk (replaceChar c r.data s.data)

/-- `escape_javascript_string` (`streamlit_app.py` lines 325-343, identical
in `app.py` lines 164-182): six chained replacements, backslash first, then
backtick, newline, carriage return, double quote, single quote. -/
def escape_javascript_string (text : String) : String :=
  let t1 := pyReplace text '\\' "\\\\"
  let t2 := pyReplace t1 '\x60' "\\\x60"
  let t3 := pyReplace t2 '\n' "\\n"
  let t4 := pyReplace t3 '\r' "\\r"
  let t5 := pyReplace t4 '\"' "\\\""
  pyReplace t5 '\x27' "\\\x27"

/-- A concrete decoder for witnesses: bytes starting with 137 (the first PNG
magic byte) decode, anything else fails. -/
def demoDecode (bytes : List Nat) : Option PILImage :=
  if bytes.head? = some 137 then some (PILImage.mk bytes) else none

/-- Three concrete uploads for witnesses, out of order, the middle one
corrupt under `demoDecode`. -/
def demoUploads : List UploadFile :=
  [UploadFile.mk "chat_03.png" [137, 3],
   UploadFile.mk "chat_02.png" [0, 2],
   UploadFile.mk "chat_01.png" [137, 1]]

/-- A concrete two-entry analysis cache for witnesses. -/
def demoCache : List (String × AnalysisRecord) :=
  [("emotional_tone", AnalysisRecord.mk "old result" "2024-01-01 10:00:00" "first context" 3),
   ("communication_style", AnalysisRecord.mk "style result" "2024-01-01 10:05:00" "" 4)]

/-!
Helper lemmas about the string model and the sort order.
-/

theorem lexLe_refl : ∀ l : List Char, lexLe l l = true
  | [] => rfl
  | x :: xs => by simp [lexLe, lexLe_refl xs]

theorem lexLe_total : ∀ xs ys : List Char, lexLe xs ys = true ∨ lexLe ys xs = true
  | [], _ => Or.inl rfl
  | _ :: _, [] => Or.inr rfl
  | x :: xs, y :: ys => by
    rcases Nat.lt_trichotomy x.toNat y.toNat with h | h | h
    · exact Or.inl (by simp [lexLe, h])
    · have h1 : ¬ x.toNat < y.toNat := by omega
      have h2 : ¬ y.toNat < x.toNat := by omega
      rcases lexLe_total xs ys with ih | ih
      · exact Or.inl (by simp [lexLe, h1, h2, ih])
      · exact Or.inr (by simp [lexLe, h1, h2, ih])
    · exact Or.inr (by simp [lexLe, h])

theorem lexLe_trans : ∀ xs ys zs : List Char,
    lexLe xs ys = true → lexLe ys zs = true → lexLe xs zs = true
  | [], _, _, _, _ => rfl
  | _ :: _, [], _, h, _ => by simp [lexLe] at h
  | _ :: _, _ :: _, [], _, h => by simp [lexLe] at h
  | x :: xs, y :: ys, z :: zs, h1, h2 => by
    simp only [lexLe] at h1 h2 ⊢
    by_cases hxy : x.toNat < y.toNat
    · by_cases hyz : y.toNat < z.toNat
      · have hxz : x.toNat < z.toNat := by omega
        simp [hxz]
      · by_cases hzy : z.toNat < y.toNat
        · simp [hyz, hzy] at h2
        · have hxz : x.toNat < z.toNat := by omega
          simp [hxz]
    · by_cases hyx : y.toNat < x.toNat
      · simp [hxy, hyx] at h1
      · by_cases hyz : y.toNat < z.toNat
        · have hxz : x.toNat < z.toNat := by omega
          simp [hxz]
        · by_cases hzy : z.toNat < y.toNat
          · simp [hyz, hzy] at h2
          · have hxz : ¬ x.toNat < z.toNat := by omega
            have hzx : ¬ z.toNat < x.toNat := by omega
            simp only [if_neg hxy, if_neg hyx] at h1
            simp only [if_neg hyz, if_neg hzy] at h2
            simp only [if_neg hxz, if_neg hzx]
            exact lexLe_trans xs ys zs h1 h2

theorem stripList_dropWhile_self (l : List Char) :
    List.dropWhile isPySpace (stripList l) = stripList l := by
  rw [List.dropWhile_eq_self_iff]
  intro hl
  obtain ⟨t, ht⟩ := List.rdropWhile_prefix isPySpace (List.dropWhile isPySpace l)
  have hl2 : 0 < (List.rdropWhile isPySpace (List.dropWhile isPySpace l)).length := hl
  have hA : 0 < (List.dropWhile isPySpace l).length := by
    rw [← ht, List.length_append]; omega
  have hswap : (stripList l).get ⟨0, hl⟩ = (List.dropWhile isPySpace l).get ⟨0, hA⟩ := by
    simp only [List.get_eq_getElem]
    exact List.IsPrefix.getElem ( List.rdropWhile_prefix isPySpace (List.dropWhile isPySpace l)) hl2
  rw [hswap, List.get_mk_zero hA, List.head_dropWhile_not isPySpace l]
  simp

theorem stripList_idem (l : List Char) : stripList (stripList l) = stripList l := by
  show List.rdropWhile isPySpace (List.dropWhile isPySpace (stripList l)) = stripList l
  rw [stripList_dropWhile_self]
  show List.rdropWhile isPySpace (List.rdropWhile isPySpace (List.dropWhile isPySpace l)) = _
  rw [List.rdropWhile_idempotent]
  rfl

theorem pyStrip_idem (s : String) : pyStrip (pyStrip s) = pyStrip s := by
  simp [pyStrip, stripList_idem]

theorem pyReplace_data (s : String) (c : Char) (r : String) :
    (pyReplace s c r).data = replaceChar c r.data s.data := rfl

theorem not_mem_replaceChar_self {c : Char} {r : List Char} (hr : c ∉ r) :
    ∀ l : List Char, c ∉ replaceChar c r l
  | [] => by simp [replaceChar]
  | x :: xs => by
    simp only [replaceChar, List.mem_append]
    rintro (h | h)
    · by_cases hx : x = c
      · rw [if_pos hx] at h; exact hr h
      · rw [if_neg hx] at h
        simp only [List.mem_singleton] at h
        exact hx h.symm
    · exact not_mem_replaceChar_self hr xs h

theorem not_mem_replaceChar {y c : Char} {r : List Char} (hy : y ∉ r) :
    ∀ {l : List Char}, y ∉ l → y ∉ replaceChar c r l := by
  intro l
  induction l with
  | nil => intro _; simp [replaceChar]
  | cons x xs ih =>
    intro hl
    have hx : y ≠ x := fun h => hl (h ▸ List.mem_cons_self x xs)
    have hxs : y ∉ xs := fun h => hl (List.mem_cons_of_mem _ h)
    simp only [replaceChar, List.mem_append]
    rintro (h | h)
    · by_cases hc : x = c
      · rw [if_pos hc] at h; exact hy h
      · rw [if_neg hc] at h
        simp only [List.mem_singleton] at h
        exact hx h
    · exact ih hxs h

/-- Claim C3: `escape_javascript_string` performs the six replacements with
the backslash replacement first, so the two-character input backslash-then-
backtick becomes the doubled backslash followed by the backslash-escaped
backtick (four characters), and the backslash inserted by the backtick escape
is not itself re-escaped.  The first two conjuncts trace the two relevant
stages of the chain on that input; the third is the end-to-end result. -/
theorem escape_javascript_string_backslash_backtick :
    pyReplace "\\\x60" '\\' "\\\\" = "\\\\\x60" ∧
    pyReplace "\\\\\x60" '\x60' "\\\x60" = "\\\\\\\x60" ∧
    escape_javascript_string "\\\x60" = "\\\\\\\x60" :=
  ⟨by decide, by decide, by decide⟩

/-- Claim C10: for every input, the output of `escape_javascript_string`
contains no literal newline and no literal carriage return: each is replaced
by its two-character escape, and no later replacement reintroduces one. -/
theorem escape_javascript_string_single_line (text : String) :
    '\n' ∉ (escape_javascript_string text).data ∧ '\r' ∉ (escape_javascript_string text).data := by
  constructor
  · simp only [escape_javascript_string, pyReplace_data]
    apply not_mem_replaceChar (by decide)
    apply not_mem_replaceChar (by decide)
    apply not_mem_replaceChar (by decide)
    exact not_mem_replaceChar_self (by decide) _
  · simp only [escape_javascript_string, pyReplace_data]
    apply not_mem_replaceChar (by decide)
    apply not_mem_replaceChar (by decide)
    exact not_mem_replaceChar_self (by decide) _

/-- Claim C5: clearing the analysis history empties the cache — a subsequent
read returns no records — and leaves the transcript unchanged. -/
theorem clearAnalysisHistory_clears (s : SessionState) :
    getAllRecords (clearAnalysisHistory s) = [] ∧
    (clearAnalysisHistory s).conversation = s.conversation :=
  ⟨rfl, rfl⟩

/-- Claim C6: `extract_conversation` on an empty image sequence returns no
transcript and issues no model request, for every behaviour of the model. -/
theorem extract_conversation_empty (generate_content : List GeminiPart → Option String) :
    extract_conversation generate_content [] = (none, []) := rfl

theorem pyStrip_empty : pyStrip "" = "" := rfl

/-- Claim C8: a blank API key raises the validation error eagerly at
`ChatExtractor` construction; a 5-character credential is rejected by the
sidebar gate before an extractor (and hence any request) exists; a
25-character credential passes the gate and is accepted for request attempts:
`main` constructs the extractor on the stripped key without error. -/
theorem api_key_validation (k₁ k₂ k₃ : String)
    (h1 : pyStrip k₁ = "") (h2 : (pyStrip k₂).length = 5) (h3 : (pyStrip k₃).length = 25) :
    chatExtractor_init k₁ = Except.error "API key cannot be empty" ∧
    main_init k₂ = none ∧
    main_init k₃ = some (Except.ok (pyStrip k₃)) := by
  refine ⟨?_, ?_, ?_⟩
  · simp [chatExtractor_init, h1]
  · have hv : api_key_valid k₂ = false := by
      by_cases hk : k₂ = ""
      · simp [api_key_valid, hk]
      · simp [api_key_valid, hk, h2]
    simp [main_init, hv]
  · have hs : pyStrip k₃ ≠ "" := by
      intro he
      rw [he] at h3
      simp at h3
    have hne : k₃ ≠ "" := by
      intro he
      rw [he, pyStrip_empty] at hs
      exact hs rfl
    have hv : api_key_valid k₃ = true := by
      simp [api_key_valid, hne, h3]
    have hi : pyStrip (pyStrip k₃) ≠ "" := by
      rw [pyStrip_idem]
      exact hs
    simp [main_init, hv, chatExtractor_init, hs, hi]

/-- Witness for Claim C8: a whitespace-only key, a 5-character key, and a
25-character key. -/
theorem api_key_validation_witness :
    (pyStrip "   " = "" ∧ (pyStrip "abcde").length = 5 ∧
      (pyStrip "abcdefghijklmnopqrstuvwxy").length = 25) ∧
    (chatExtractor_init "   " = Except.error "API key cannot be empty" ∧
      main_init "abcde" = none ∧
      main_init "abcdefghijklmnopqrstuvwxy" = some (Except.ok (pyStrip "abcdefghijklmnopqrstuvwxy"))) :=
  ⟨⟨by decide, by decide, by decide⟩,
    api_key_validation "   " "abcde" "abcdefghijklmnopqrstuvwxy" (by decide) (by decide) (by decide)⟩

theorem analysis_prompts_lookup_comprehensive (base : String) :
    (analysis_prompts base).lookup "comprehensive" = some (base ++ comprehensive_template) := rfl

theorem generate_analysis_prompt_comprehensive (conversation_text user_context : String) :
    generate_analysis_prompt conversation_text "comprehensive" user_context =
      base_context conversation_text user_context ++ comprehensive_template := by
  simp [generate_analysis_prompt, analysis_prompts_lookup_comprehensive]

/-- Claim C2: for every analysis type outside the seven enumerated keys, and
for every transcript and user context, `generate_analysis_prompt` returns
exactly the prompt it returns for "comprehensive" — the fallback is the
defined default of `prompts.get`, not an error. -/
theorem generate_analysis_prompt_unknown_default
    (conversation_text analysis_type user_context : String)
    (h : analysis_type ∉ analysis_prompt_keys) :
    generate_analysis_prompt conversation_text analysis_type user_context =
      generate_analysis_prompt conversation_text "comprehensive" user_context := by
  simp only [analysis_prompt_keys, List.mem_cons, List.not_mem_nil, or_false, not_or] at h
  obtain ⟨h1, h2, h3, h4, h5, h6, h7⟩ := h
  have hnone : ∀ base : String, (analysis_prompts base).lookup analysis_type = none := by
    intro base
    simp only [analysis_prompts, List.lookup, beq_eq_false_iff_ne.mpr h1,
      beq_eq_false_iff_ne.mpr h2, beq_eq_false_iff_ne.mpr h3, beq_eq_false_iff_ne.mpr h4,
      beq_eq_false_iff_ne.mpr h5, beq_eq_false_iff_ne.mpr h6, beq_eq_false_iff_ne.mpr h7]
  rw [generate_analysis_prompt_comprehensive]
  simp only [generate_analysis_prompt, hnone, analysis_prompts_lookup_comprehensive,
    Option.getD_none, Option.getD_some]

/-- Witness for Claim C2 at the unrecognized analysis type "sentiment". -/
theorem generate_analysis_prompt_unknown_default_witness :
    ("sentiment" ∉ analysis_prompt_keys) ∧
    generate_analysis_prompt "[A]: hi" "sentiment" "ctx" =
      generate_analysis_prompt "[A]: hi" "comprehensive" "ctx" :=
  ⟨by decide, generate_analysis_prompt_unknown_default "[A]: hi" "sentiment" "ctx" (by decide)⟩

/-- Claim C9: a user context that strips to the empty string produces exactly
the same prompt as the empty context, for every transcript and analysis
type: no labelled context block is emitted for whitespace-only context. -/
theorem generate_analysis_prompt_blank_context
    (conversation_text analysis_type user_context : String)
    (h : pyStrip user_context = "") :
    generate_analysis_prompt conversation_text analysis_type user_context =
      generate_analysis_prompt conversation_text analysis_type "" := by
  have hb : base_context conversation_text user_context = base_context conversation_text "" := by
    simp [base_context, h, pyStrip_empty]
  simp only [generate_analysis_prompt, hb]

/-- Witness for Claim C9 at a whitespace-only context string. -/
theorem generate_analysis_prompt_blank_context_witness :
    (pyStrip " \n " = "") ∧
    generate_analysis_prompt "[A]: hi" "emotional_tone" " \n " =
      generate_analysis_prompt "[A]: hi" "emotional_tone" "" :=
  ⟨by decide, generate_analysis_prompt_blank_context "[A]: hi" "emotional_tone" " \n " (by decide)⟩

theorem sortByName_filter_name (l : List FileData) (n : String) :
    (sortByName l).filter (fun x => x.name == n) = l.filter (fun x => x.name == n) := by
  have hpair : (l.filter (fun x => x.name == n)).Pairwise fileLe := by
    apply List.pairwise_of_forall_mem_list
    intro a ha b hb
    rw [List.mem_filter] at ha hb
    have h1 : a.name = n := by simpa using ha.2
    have h2 : b.name = n := by simpa using hb.2
    show nameLe a.name b.name = true
    rw [h1, h2]
    exact lexLe_refl _
  have hsub : List.Sublist (l.filter (fun x => x.name == n)) (sortByName l) :=
    List.sublist_insertionSort hpair (List.filter_sublist l)
  have hid : (l.filter (fun x => x.name == n)).filter (fun x => x.name == n) =
      l.filter (fun x => x.name == n) :=
    List.filter_eq_self.mpr (fun a ha => (List.mem_filter.mp ha).2)
  have hsub2 : List.Sublist (l.filter (fun x => x.name == n))
      ((sortByName l).filter (fun x => x.name == n)) :=
    hid ▸ hsub.filter (fun x => x.name == n)
  have hperm : List.Perm ((sortByName l).filter (fun x => x.name == n))
      (l.filter (fun x => x.name == n)) :=
    (List.perm_insertionSort fileLe l).filter (fun x => x.name == n)
  exact (hsub2.eq_of_length hperm.length_eq.symm).symm

/-- Claim C1: `prepare_images` returns the metadata entries sorted ascending
by filename whatever the input order was; the sort is stable — for each
filename the entries carrying it appear in their original input order, which
the filter characterisation below expresses — and the returned image list is
the metadata list's images in the same order. -/
theorem prepare_images_sorted (decode : List Nat → Option PILImage)
    (uploaded_files : List UploadFile) :
    List.Sorted fileLe (prepare_images decode uploaded_files).2 ∧
    (∀ n : String, (prepare_images decode uploaded_files).2.filter (fun x => x.name == n) =
      (ingestLoop decode uploaded_files).1.filter (fun x => x.name == n)) ∧
    (prepare_images decode uploaded_files).1 =
      (prepare_images decode uploaded_files).2.map (fun item => item.image) := by
  refine ⟨?_, ?_, rfl⟩
  · haveI : IsTotal FileData fileLe := ⟨fun a b => lexLe_total a.name.data b.name.data⟩
    haveI : IsTrans FileData fileLe := ⟨fun a b c => lexLe_trans a.name.data b.name.data c.name.data⟩
    exact List.sorted_insertionSort fileLe _
  · intro n
    exact sortByName_filter_name _ n

theorem ingestLoop_errors (decode : List Nat → Option PILImage) :
    ∀ files : List UploadFile,
      (ingestLoop decode files).2 =
        (files.filter (fun f => (decode f.bytes).isNone)).map (fun f => f.name)
  | [] => rfl
  | f :: rest => by
    cases hdec : decode f.bytes with
    | some img => simp [ingestLoop, hdec, ingestLoop_errors decode rest, List.filter_cons]
    | none => simp [ingestLoop, hdec, ingestLoop_errors decode rest, List.filter_cons]

theorem ingestLoop_survivors (decode : List Nat → Option PILImage) :
    ∀ files : List UploadFile,
      (ingestLoop decode files).1 =
        files.filterMap (fun f => (decode f.bytes).map (fun img => FileData.mk f.name img f.bytes.length))
  | [] => rfl
  | f :: rest => by
    cases hdec : decode f.bytes with
    | some img => simp [ingestLoop, hdec, ingestLoop_survivors decode rest, List.filterMap_cons]
    | none => simp [ingestLoop, hdec, ingestLoop_survivors decode rest, List.filterMap_cons]

/-- Claim C7: when some uploads fail to decode, `prepare_images` reports each
failing entry by name (in input order), excludes exactly the failures, and
still returns every successfully decoded entry, sorted by filename — one
decode failure never prevents the remaining entries from being ingested and
ordered. -/
theorem prepare_images_partial (decode : List Nat → Option PILImage)
    (uploaded_files : List UploadFile)
    (h : ∃ f ∈ uploaded_files, decode f.bytes = none) :
    (ingestLoop decode uploaded_files).2 =
      (uploaded_files.filter (fun f => (decode f.bytes).isNone)).map (fun f => f.name) ∧
    (prepare_images decode uploaded_files).2.Perm
      (uploaded_files.filterMap
        (fun f => (decode f.bytes).map (fun img => FileData.mk f.name img f.bytes.length))) ∧
    List.Sorted fileLe (prepare_images decode uploaded_files).2 := by
  refine ⟨ingestLoop_errors decode uploaded_files, ?_, ?_⟩
  · rw [← ingestLoop_survivors decode uploaded_files]
    exact List.perm_insertionSort fileLe _
  · haveI : IsTotal FileData fileLe := ⟨fun a b => lexLe_total a.name.data b.name.data⟩
    haveI : IsTrans FileData fileLe := ⟨fun a b c => lexLe_trans a.name.data b.name.data c.name.data⟩
    exact List.sorted_insertionSort fileLe _

/-- Witness for Claim C7: three uploads given out of order, the middle
filename corrupt under `demoDecode`. -/
theorem prepare_images_partial_witness :
    (∃ f ∈ demoUploads, demoDecode f.bytes = none) ∧
    ((ingestLoop demoDecode demoUploads).2 =
      (demoUploads.filter (fun f => (demoDecode f.bytes).isNone)).map (fun f => f.name) ∧
     (prepare_images demoDecode demoUploads).2.Perm
       (demoUploads.filterMap
         (fun f => (demoDecode f.bytes).map (fun img => FileData.mk f.name img f.bytes.length))) ∧
     List.Sorted fileLe (prepare_images demoDecode demoUploads).2) :=
  ⟨by decide, prepare_images_partial demoDecode demoUploads (by decide)⟩

theorem dictGet_dictSet_self :
    ∀ (d : List (String × AnalysisRecord)) (k : String) (v : AnalysisRecord),
      dictGet (dictSet d k v) k = some v
  | [], k, v => by simp [dictSet, dictGet]
  | (k2, v2) :: rest, k, v => by
    by_cases h : k2 = k
    · simp [dictSet, dictGet, h]
    · simp only [dictSet, if_neg h, dictGet]
      exact dictGet_dictSet_self rest k v

theorem dictGet_dictSet_other :
    ∀ (d : List (String × AnalysisRecord)) (k : String) (v : AnalysisRecord) (k2 : String),
      k2 ≠ k → dictGet (dictSet d k v) k2 = dictGet d k2
  | [], k, v, k2, h => by
    simp [dictSet, dictGet, Ne.symm h]
  | (ka, va) :: rest, k, v, k2, h => by
    by_cases hk : ka = k
    · subst hk
      simp [dictSet, dictGet, Ne.symm h]
    · simp only [dictSet, if_neg hk, dictGet]
      by_cases h2 : ka = k2
      · simp [h2]
      · rw [if_neg h2, if_neg h2]
        exact dictGet_dictSet_other rest k v k2 h

theorem dictSet_filter_ne :
    ∀ (d : List (String × AnalysisRecord)) (k : String) (v : AnalysisRecord),
      (dictSet d k v).filter (fun p => !(p.1 == k)) = d.filter (fun p => !(p.1 == k))
  | [], k, v => by simp [dictSet]
  | (ka, va) :: rest, k, v => by
    by_cases hk : ka = k
    · subst hk
      simp [dictSet, List.filter_cons]
    · simp only [dictSet, if_neg hk, List.filter_cons]
      rw [dictSet_filter_ne rest k v]

theorem dictSet_countP (d : List (String × AnalysisRecord)) (k : String) (v : AnalysisRecord)
    (h : (d.map Prod.fst).Nodup) :
    (dictSet d k v).countP (fun p => p.1 == k) = 1 := by
  induction d with
  | nil => simp [dictSet, List.countP_cons]
  | cons head rest ih =>
    obtain ⟨ka, va⟩ := head
    simp only [List.map_cons, List.nodup_cons] at h
    obtain ⟨hnot, hnd⟩ := h
    by_cases hk : ka = k
    · subst hk
      have hz : rest.countP (fun p => p.1 == ka) = 0 := by
        rw [List.countP_eq_zero]
        intro p hp
        simp only [beq_iff_eq]
        intro hpk
        exact hnot (hpk ▸ List.mem_map_of_mem Prod.fst hp)
      simp [dictSet, List.countP_cons, hz]
    · simp only [dictSet, if_neg hk]
      rw [List.countP_cons]
      simp [hk, ih hnd]

/-- Claim C4: storing an analysis result for type `t` unconditionally
overwrites any existing record for `t` — afterwards the cache holds exactly
one record for `t`, carrying the new run's result text, timestamp, context
and duration — and the records of every other analysis type are unchanged,
both as lookups and as the key-ordered sublist of other-type entries. -/
theorem storeAnalysisResult_overwrites (cache : List (String × AnalysisRecord))
    (t res ts ctx : String) (dt : Nat)
    (h : (cache.map Prod.fst).Nodup) :
    dictGet (storeAnalysisResult cache t res ts ctx dt) t =
      some (AnalysisRecord.mk res ts ctx dt) ∧
    (storeAnalysisResult cache t res ts ctx dt).countP (fun p => p.1 == t) = 1 ∧
    (∀ t2, t2 ≠ t →
      dictGet (storeAnalysisResult cache t res ts ctx dt) t2 = dictGet cache t2) ∧
    (storeAnalysisResult cache t res ts ctx dt).filter (fun p => !(p.1 == t)) =
      cache.filter (fun p => !(p.1 == t)) := by
  refine ⟨dictGet_dictSet_self cache t _, dictSet_countP cache t _ h, ?_, dictSet_filter_ne cache t _⟩
  intro t2 h2
  exact dictGet_dictSet_other cache t _ t2 h2

/-- Witness for Claim C4: re-running "emotional_tone" on a two-entry cache
with a new result, context and timestamp. -/
theorem storeAnalysisResult_overwrites_witness :
    ((demoCache.map Prod.fst).Nodup) ∧
    (dictGet (storeAnalysisResult demoCache "emotional_tone" "new result" "2024-01-02 09:00:00" "second context" 5) "emotional_tone" =
      some (AnalysisRecord.mk "new result" "2024-01-02 09:00:00" "second context" 5) ∧
    (storeAnalysisResult demoCache "emotional_tone" "new result" "2024-01-02 09:00:00" "second context" 5).countP (fun p => p.1 == "emotional_tone") = 1 ∧
    (∀ t2, t2 ≠ "emotional_tone" →
      dictGet (storeAnalysisResult demoCache "emotional_tone" "new result" "2024-01-02 09:00:00" "second context" 5) t2 = dictGet demoCache t2) ∧
    (storeAnalysisResult demoCache "emotional_tone" "new result" "2024-01-02 09:00:00" "second context" 5).filter (fun p => !(p.1 == "emotional_tone")) =
      demoCache.filter (fun p => !(p.1 == "emotional_tone"))) :=
  ⟨by decide, storeAnalysisResult_overwrites demoCache "emotional_tone" "new result" "2024-01-02 09:00:00" "second context" 5 (by decide)⟩
